import Mathlib

/-
  Verification development for the gdbus-client repository.

  The definitions below are a shallow embedding of the C++ sources:
    - GDBusConverters.cpp : the scalar codec (marshal/unmarshal), the shadow
      value store (variants_map_t / GDBusVariant) and the tuple machinery
      (tuple_t / GDBusTuple);
    - the main client translation unit : gerror_t classification,
      call_storage_t, proxy_t::instanceFor, GDBusCall::callSync and the
      signal loop (mainLoopInstance / waitAndProcessSignals /
      stopProcessingSignals).

  Machine doubles are modelled as exact rationals (Rat); every value used in
  the statements (2.5, 0, 1) is exactly representable as an IEEE double, and
  the only double operation the source performs is the comparison against
  zero hidden in static_cast<bool>, which is exact.
-/

/-! ## Wire values (GVariant) and native cells -/

/-- A D-Bus wire value (the payload of a `GVariant*`), restricted to the
scalar catalog handled by the converters in GDBusConverters.cpp.
`g_variant_is_of_type` dispatches on the constructor. -/
inductive GVar where
  | VString (s : String)
  | VObjectPath (s : String)
  | VInt32 (i : Int)
  | VUInt32 (n : Nat)
  | VByte (n : Nat)
  | VInt16 (i : Int)
  | VUInt64 (n : Nat)
  | VBool (b : Bool)
  | VDouble (x : Rat)
deriving DecidableEq

/-- The native storage cell of a GDBusParam, one constructor per C++ holder
type used by the scalar PARAM_CTOR instantiations (std::string, int32_t,
uint32_t, uint8_t, int16_t, uint64_t, bool, double). -/
inductive PVal where
  | pS (s : String)
  | pI (i : Int)
  | pU (n : Nat)
  | pY (n : Nat)
  | pN (i : Int)
  | pT (n : Nat)
  | pB (b : Bool)
  | pD (x : Rat)
deriving DecidableEq

/-- The scalar wire-type tags from namespace GDBusType (GDBusClient.hpp). -/
inductive WireType where
  | TYPE_S | TYPE_I | TYPE_U | TYPE_Y | TYPE_N | TYPE_T | TYPE_B | TYPE_D | TYPE_O
deriving DecidableEq

/-- The value-initialized default (`par->value = {}`) of the native cell for
each scalar wire type; written by the cleanup closure of an out parameter. -/
def defaultVal : WireType → PVal
  | .TYPE_S => .pS ""
  | .TYPE_O => .pS ""
  | .TYPE_I => .pI 0
  | .TYPE_U => .pU 0
  | .TYPE_Y => .pY 0
  | .TYPE_N => .pN 0
  | .TYPE_T => .pT 0
  | .TYPE_B => .pB false
  | .TYPE_D => .pD 0

/-- One character of a D-Bus object-path element: `[A-Za-z0-9_]`
(per `g_variant_is_object_path`). -/
def isObjectPathChar (c : Char) : Bool :=
  c.isAlphanum || c == '_'

/-- Scanner for the tail of an object path (everything after the leading
slash). The flag records whether the previous character was a slash: a slash
may not follow a slash and the path may not end in one. -/
def objectPathTail : Bool → List Char → Bool
  | prevSlash, [] => !prevSlash
  | prevSlash, c :: cs =>
      if c == '/' then !prevSlash && objectPathTail true cs
      else isObjectPathChar c && objectPathTail false cs

/-- `g_variant_is_object_path`: "/" alone, or a leading slash followed by
slash-separated nonempty `[A-Za-z0-9_]` elements, with no trailing slash. -/
def isObjectPath (s : String) : Bool :=
  match s.toList with
  | '/' :: [] => true
  | '/' :: cs => objectPathTail true cs
  | _ => false

/-- The `marshal` overload set of gdbus_client::converters for the scalar
types, dispatched on the wire-type tag. Only `marshal(TYPE_O, ...)` can
return nullptr (modelled as `none`), when the string is not a valid object
path. A cell whose constructor does not match the tag cannot arise from the
C++ template instantiations. -/
def marshalVal : WireType → PVal → Option GVar
  | .TYPE_S, .pS s => some (.VString s)
  | .TYPE_I, .pI i => some (.VInt32 i)
  | .TYPE_U, .pU n => some (.VUInt32 n)
  | .TYPE_Y, .pY n => some (.VByte n)
  | .TYPE_N, .pN i => some (.VInt16 i)
  | .TYPE_T, .pT n => some (.VUInt64 n)
  | .TYPE_B, .pB b => some (.VBool b)
  | .TYPE_D, .pD x => some (.VDouble x)
  | .TYPE_O, .pS p => if isObjectPath p then some (.VObjectPath p) else none
  | _, _ => none

/-- The `unmarshal` overload set for the scalar types: `some v` when the
source stores `v` into the native cell and returns true, `none` when it
returns false. The TYPE_D case transcribes the source verbatim:
`x = static_cast<bool>(g_variant_get_double(gv))`, i.e. the double is
collapsed to 0 or 1 (`d != 0.0` converted back to double). -/
def unmarshalVal : WireType → GVar → Option PVal
  | .TYPE_S, .VString s => some (.pS s)
  | .TYPE_I, .VInt32 i => some (.pI i)
  | .TYPE_U, .VUInt32 n => some (.pU n)
  | .TYPE_Y, .VByte n => some (.pY n)
  | .TYPE_N, .VInt16 i => some (.pN i)
  | .TYPE_T, .VUInt64 n => some (.pT n)
  | .TYPE_B, .VBool b => some (.pB b)
  | .TYPE_D, .VDouble x => some (.pD (if x = 0 then 0 else 1))
  | .TYPE_O, .VObjectPath p => some (.pS p)
  | _, _ => none

/-- Round-trip through the codec: encode then decode. -/
def roundTrip (t : WireType) (v : PVal) : Option PVal :=
  (marshalVal t v).bind (unmarshalVal t)

theorem roundTrip_S (s : String) : roundTrip .TYPE_S (.pS s) = some (.pS s) := rfl

theorem roundTrip_I (i : Int) (_h1 : -(2 ^ 31) ≤ i) (_h2 : i < 2 ^ 31) :
    roundTrip .TYPE_I (.pI i) = some (.pI i) := rfl

theorem roundTrip_U (n : Nat) (_h : n < 2 ^ 32) :
    roundTrip .TYPE_U (.pU n) = some (.pU n) := rfl

theorem roundTrip_Y (n : Nat) (_h : n < 2 ^ 8) :
    roundTrip .TYPE_Y (.pY n) = some (.pY n) := rfl

theorem roundTrip_N (i : Int) (_h1 : -(2 ^ 15) ≤ i) (_h2 : i < 2 ^ 15) :
    roundTrip .TYPE_N (.pN i) = some (.pN i) := rfl

theorem roundTrip_T (n : Nat) (_h : n < 2 ^ 64) :
    roundTrip .TYPE_T (.pT n) = some (.pT n) := rfl

theorem roundTrip_B (b : Bool) : roundTrip .TYPE_B (.pB b) = some (.pB b) := rfl

theorem roundTrip_O (p : String) (h : isObjectPath p = true) :
    roundTrip .TYPE_O (.pS p) = some (.pS p) := by
  simp [roundTrip, marshalVal, h, Option.bind, unmarshalVal]

/-! ## Shadow value store (variants_map_t, GDBusVariant) -/

/-- Address of a GDBusVariant object (the map key `const GDBusVariant*`). -/
abbrev Addr := Nat

/-- Identity of a heap-allocated GVariant (the `GVariant*` held in the
`gv` field of a variant_t). -/
abbrev GvPtr := Nat

/-- The reference-counted GVariant heap: pointer, pointed-to value,
reference count. `g_variant_ref` / `g_variant_unref` adjust the count;
a cell whose count reaches zero is freed. -/
structure GvHeap where
  cells : List (GvPtr × GVar × Nat)
deriving DecidableEq

/-- `g_variant_ref p`. -/
def heapRef (h : GvHeap) (p : GvPtr) : GvHeap :=
  ⟨h.cells.map (fun c => if c.1 = p then (c.1, c.2.1, c.2.2 + 1) else c)⟩

/-- `g_variant_unref p`: decrement, freeing the cell when the count hits 0. -/
def heapUnref (h : GvHeap) (p : GvPtr) : GvHeap :=
  ⟨(h.cells.map (fun c => if c.1 = p then (c.1, c.2.1, c.2.2 - 1) else c)).filter
      (fun c => c.2.2 != 0)⟩

/-- Dereference a live GVariant pointer. -/
def heapVal (h : GvHeap) (p : GvPtr) : Option GVar :=
  (h.cells.lookup p).map Prod.fst

/-- The table field of the process-wide `variants` map: each GDBusVariant
address maps to the `gv` field of its stored variant_t (`none` models a
null `gv`, i.e. an empty variant_t). -/
abbrev VarTable := List (Addr × Option GvPtr)

/-- `variants_map_t::insert`, which calls `std::map::emplace`: the pair is
inserted only when the key is absent; an existing entry is left unchanged. -/
def vmInsert (m : VarTable) (k : Addr) (g : Option GvPtr) : VarTable :=
  if (m.lookup k).isSome then m else (k, g) :: m

/-- `variants_map_t::at`: the stored variant_t for the key, or an empty
variant_t (`none`) when the key is missing. -/
def vmAt (m : VarTable) (k : Addr) : Option GvPtr :=
  (m.lookup k).getD none

/-- `variants_map_t::erase` (table part; the unref of the erased entry is
performed by the callers below, matching the destructor of the stored
variant_t). -/
def vmErase (m : VarTable) (k : Addr) : VarTable :=
  m.filter (fun e => e.1 != k)

/-- The combined shadow-store state: the GVariant heap plus the
`variants` table. -/
structure VarStore where
  heap : GvHeap
  table : VarTable
deriving DecidableEq

/-- `GDBusVariant::GDBusVariant(const GDBusVariant &v)`:
`variants.insert(this, variants.at(&v))`. `at` returns a variant_t copy
(which refs the shared GVariant); `insert`/emplace moves that copy into the
table only when `this` has no entry yet, otherwise the temporary is dropped
again (net zero references). -/
def gdvCopy (s : VarStore) (this src : Addr) : VarStore :=
  let g := vmAt s.table src
  if (s.table.lookup this).isSome then s
  else
    { table := vmInsert s.table this g,
      heap := match g with
              | some p => heapRef s.heap p
              | none => s.heap }

/-- `GDBusVariant::~GDBusVariant()`: `variants.erase(this)`; erasing the
entry destroys its variant_t, which unrefs the held GVariant. -/
def gdvDestroy (s : VarStore) (this : Addr) : VarStore :=
  match s.table.lookup this with
  | none => s
  | some g =>
    { table := vmErase s.table this,
      heap := match g with
              | some p => heapUnref s.heap p
              | none => s.heap }

/-- `GDBusVariant::operator=`: `variants.erase(this)` then
`variants.insert(this, variants.at(&v))` — the same insert path as the
copy constructor, after the erase. -/
def gdvAssign (s : VarStore) (this src : Addr) : VarStore :=
  gdvCopy (gdvDestroy s this) this src

/-- What a handle denotes: the `variants.at(this)` lookup followed by the
dereference of the held GVariant (a null `gv` fails the
`if (variant_t v = ...)` test in the getters). -/
def resolve (s : VarStore) (this : Addr) : Option GVar :=
  match vmAt s.table this with
  | some p => heapVal s.heap p
  | none => none

/-- `GDBusVariant::getInt(bool &result)`: (returned int, result flag). -/
def getInt (s : VarStore) (this : Addr) : Int × Bool :=
  match resolve s this with
  | some (.VInt32 i) => (i, true)
  | _ => (0, false)

/-- `GDBusVariant::getBool(bool &result)`. -/
def getBool (s : VarStore) (this : Addr) : Bool × Bool :=
  match resolve s this with
  | some (.VBool b) => (b, true)
  | _ => (false, false)

/-- `GDBusVariant::getDouble(bool &result)`. -/
def getDouble (s : VarStore) (this : Addr) : Rat × Bool :=
  match resolve s this with
  | some (.VDouble x) => (x, true)
  | _ => (0, false)

/-- `GDBusVariant::getString(bool &result)`. -/
def getString (s : VarStore) (this : Addr) : String × Bool :=
  match resolve s this with
  | some (.VString str) => (str, true)
  | _ => ("", false)

/-- `g_variant_print` on the scalar catalog (the exact text is irrelevant
to the claims; only emptiness vs. non-emptiness is used). -/
def gvPrint : GVar → String
  | .VString s => s
  | .VObjectPath s => s
  | .VInt32 i => toString i
  | .VUInt32 n => toString n
  | .VByte n => toString n
  | .VInt16 i => toString i
  | .VUInt64 n => toString n
  | .VBool b => if b then "true" else "false"
  | .VDouble x => toString x

/-- `GDBusVariant::print()`: empty string when the handle has no stored
value. -/
def gdvPrintStr (s : VarStore) (this : Addr) : String :=
  match resolve s this with
  | some g => gvPrint g
  | none => ""

/-! ## Tuple machinery (tuple_t, GDBusTuple) -/

/-- The four field kinds a GDBusTuple descendant can declare
(pint, pdouble, pbool, pstring); each registers the matching getter
(strInt, strDouble, strBool, strString) in the tuple_t. -/
inductive FieldType where
  | fInt | fDouble | fBool | fString
deriving DecidableEq

/-- `strInt`: `std::to_string(v.getInt(res))` plus the result flag. -/
def strInt (s : VarStore) (a : Addr) : String × Bool :=
  let r := getInt s a
  (toString r.1, r.2)

/-- `strDouble` (the textual rendering differs from std::to_string's "%f"
format, which is irrelevant to the claims: only the flag and emptiness of
the assembled string matter, and the piece is always wrapped in "<>"). -/
def strDouble (s : VarStore) (a : Addr) : String × Bool :=
  let r := getDouble s a
  (toString r.1, r.2)

/-- `strBool`: `std::to_string(v.getBool(res))` prints the bool as an int. -/
def strBool (s : VarStore) (a : Addr) : String × Bool :=
  let r := getBool s a
  ((if r.1 then "1" else "0"), r.2)

/-- `strString`: `v.getString(res)`. -/
def strString (s : VarStore) (a : Addr) : String × Bool :=
  getString s a

/-- The getter registered for each field kind. -/
def getterOf : FieldType → VarStore → Addr → String × Bool
  | .fInt => strInt
  | .fDouble => strDouble
  | .fBool => strBool
  | .fString => strString

/-- A `tuple_t`: the assigned variant handles (`vars`) and the getters
registered by the declared fields, in declaration order. -/
structure TupleT where
  vars : List Addr
  getters : List FieldType
deriving DecidableEq

/-- The accumulation loop of `tuple_t::toString`: walks getters and
variants in lockstep, appending `"<" + piece + ">"` separated by single
spaces, and gives up (`none`, the source's early `return ""`) as soon as a
getter reports failure. -/
def tupleFieldsStr (store : VarStore) : List FieldType → List Addr → String → Option String
  | [], _, acc => some acc
  | _ft :: _fts, [], _ => none
  | ft :: fts, a :: as_, acc =>
      let r := getterOf ft store a
      let acc2 := acc ++ (if acc.isEmpty then "" else " ") ++ "<" ++ r.1 ++ ">"
      if r.2 then tupleFieldsStr store fts as_ acc2 else none

/-- `tuple_t::toString`: empty when the field count and variant count
disagree or any getter fails; otherwise the pieces wrapped in parens. -/
def tupleToStr (store : VarStore) (t : TupleT) : String :=
  if t.vars.length != t.getters.length then ""
  else
    match tupleFieldsStr store t.getters t.vars "" with
    | some str => "(" ++ str ++ ")"
    | none => ""

/-- `tuple_t::assign` (reached through `GDBusTuple::assign` via
`tuples[this]`): replace `vars` with the supplied variants and succeed iff
`toString` is nonempty. -/
def tupleAssign (store : VarStore) (t : TupleT) (variants : List Addr) : TupleT × Bool :=
  let t2 := { t with vars := variants }
  (t2, !(tupleToStr store t2).isEmpty)

/-- Success of one field extraction, phrased on the resolved variant: the
expected scalar type must match the stored wire value. -/
def fieldOk (store : VarStore) : FieldType → Addr → Bool
  | .fInt, a => (getInt store a).2
  | .fDouble, a => (getDouble store a).2
  | .fBool, a => (getBool store a).2
  | .fString, a => (getString store a).2

/-! ## Error classification (gerror_t) -/

/-- `gerror_t::errcode_t`. -/
inductive Errcode where
  | NOERR | SERVICE_UNKNOWN | SERVER_DISCONNECT | ACCESS_DENIED | UNSPECIFIED
deriving DecidableEq

/-- The GQuark of the g-dbus-error domain (an opaque nonzero id; only its
identity matters for the errorMap lookups). -/
def G_DBUS_ERROR : Nat := 1

/-- GDBusError code values from gio/gioenums.h used by the errorMap. -/
def G_DBUS_ERROR_SERVICE_UNKNOWN : Nat := 2
def G_DBUS_ERROR_ACCESS_DENIED : Nat := 9
def G_DBUS_ERROR_DISCONNECTED : Nat := 27

/-- A set `GError` (domain quark, error code); `gerror_t.err == nullptr`
is modelled as `Option.none` at the use sites. -/
structure GErrorT where
  domain : Nat
  code : Nat
deriving DecidableEq

/-- `gerror_t::errorMap`. -/
def errorMap : List ((Nat × Nat) × Errcode) :=
  [ ((G_DBUS_ERROR, G_DBUS_ERROR_SERVICE_UNKNOWN), .SERVICE_UNKNOWN),
    ((G_DBUS_ERROR, G_DBUS_ERROR_DISCONNECTED), .SERVER_DISCONNECT),
    ((G_DBUS_ERROR, G_DBUS_ERROR_ACCESS_DENIED), .ACCESS_DENIED) ]

/-- `gerror_t::errType`: NOERR when no error is set, the mapped
classification when (domain, code) is in the errorMap, else UNSPECIFIED. -/
def errType : Option GErrorT → Errcode
  | none => .NOERR
  | some e => (errorMap.lookup (e.domain, e.code)).getD .UNSPECIFIED

/-- The `retriableErrors` set of GDBusCall::callSync. -/
def retriableErrors : List Errcode := [.SERVICE_UNKNOWN, .SERVER_DISCONNECT]

/-! ## Call registry (call_storage_t) -/

/-- `call_guard_t::verboseCheckOwnership`: the observed `use_count` must be
the expected owner count, or zero (an empty guard). `logAssert` returns the
checked condition and logs when it is false. -/
def verboseCheckOwnership (nUsers nOwners : Nat) : Bool :=
  nUsers == nOwners || nUsers == 0

/-- What `call_storage_t::get` hands back. -/
structure GetResult where
  usable : Bool
  violationLogged : Bool
deriving DecidableEq

/-- `call_storage_t::get`. The guard constructor copies the map's
shared_ptr, so the observed use_count is: the registry entry (1) + this
guard's copy (1) + any guards still held by other threads, or 0 when the
entry holds no call (`calls[p]` default-inserts a null shared_ptr for an
unknown key). When the ownership check fails, the violation is logged and
the empty guard `call_guard_t{call_ptr_t()}` is returned. -/
def storageGet (storageDestroyed : Bool) (entryPresent : Bool) (otherGuards : Nat) : GetResult :=
  if storageDestroyed then ⟨false, false⟩
  else
    let nUsers := if entryPresent then 2 + otherGuards else 0
    if verboseCheckOwnership nUsers 2 then ⟨entryPresent, false⟩
    else ⟨false, true⟩

/-! ## Endpoint pool (proxy_t::instanceFor) -/

/-- `proxy_t::Policy`. -/
inductive Policy where
  | USE_EXISTING | RECREATE
deriving DecidableEq

/-- A `proxy_t`: the owned GDBusProxy pointer (`none` when
`g_dbus_proxy_new_for_bus_sync` failed, i.e. an invalid endpoint) and the
diagnostic object name. -/
structure ProxyT where
  proxy : Option Nat
  objName : String
deriving DecidableEq

/-- The static `proxies` map plus a supply of fresh GDBusProxy pointer
identities for newly created proxies. -/
structure PoolState where
  proxies : List (String × ProxyT)
  nextPtr : Nat
deriving DecidableEq

/-- Store-or-replace in the pool's lookup table
(`proxies[target] = proxy_t{obj}`): afterwards the target maps to the new
proxy and every other triple is untouched (standard association-list
update standing in for the std::map assignment). -/
def poolUpdate (m : List (String × ProxyT)) (k : String) (v : ProxyT) : List (String × ProxyT) :=
  (k, v) :: m.filter (fun e => e.1 != k)

/-- `proxy_t::instanceFor`. The key is `name + " " + path + " " + iface`.
`createOk` tells whether the external `g_dbus_proxy_new_for_bus_sync` call
would succeed right now ("no intervening failure" = createOk true); a fresh
proxy gets the next unused pointer identity. Under USE_EXISTING with a
cached valid proxy the table is untouched and the cached instance is
returned (`proxies[target]` default-inserts an invalid entry for a missing
key, which the recreate branch then immediately replaces). -/
def instanceFor (s : PoolState) (name path iface : String) (policy : Policy) (createOk : Bool) :
    PoolState × ProxyT :=
  let target := name ++ " " ++ path ++ " " ++ iface
  let cur := (s.proxies.lookup target).getD ⟨none, ""⟩
  if policy = .RECREATE ∨ cur.proxy = none then
    let p : ProxyT := ⟨if createOk then some s.nextPtr else none, name⟩
    (⟨poolUpdate s.proxies target p, s.nextPtr + 1⟩, p)
  else (s, cur)

/-- Pool well-formedness: every stored proxy pointer was drawn from the
fresh-pointer supply. Holds for the empty pool and is preserved by
`instanceFor`. -/
def PoolWF (s : PoolState) : Prop :=
  ∀ t p, (t, p) ∈ s.proxies → ∀ n, p.proxy = some n → n < s.nextPtr

/-! ## Call dispatcher (GDBusCall::callSync) -/

/-- `MAX_ATTEMPTS` and `WAIT_MS` from GDBusCall::callSync. -/
def MAX_ATTEMPTS : Nat := 3
def WAIT_MS : Nat := 250

/-- One registered `param_t` together with the native cell
(`GDBusParam::value`) its closures read and write. -/
structure ParamT where
  wty : WireType
  dir : Bool        -- true = PARAM_IN (marshal closure set), false = PARAM_OUT (unmarshal + cleanup)
  value : PVal
deriving DecidableEq

/-- The external transport behaviour of one callSync invocation: for the
k-th attempt (0-based), the result of `g_dbus_proxy_call_sync` (an out
tuple, or a set GError), and whether `proxy_t::instanceFor` yields a valid
proxy for that attempt. The proxy policy (USE_EXISTING on the first
attempt, RECREATE afterwards) selects which proxy that is; its validity is
all callSync inspects. -/
structure CallEnv where
  invoke : Nat → GErrorT ⊕ List GVar
  proxyOk : Nat → Bool

/-- The input-marshalling loop of callSync: every param with a marshal
closure (PARAM_IN) is encoded in declaration order; a null GVariant from
any marshaller aborts the whole call. -/
def marshalIns : List ParamT → Option (List GVar)
  | [] => some []
  | p :: ps =>
      if p.dir then (marshalVal p.wty p.value).bind (fun v => (marshalIns ps).map (v :: ·))
      else marshalIns ps

/-- Result of the retry loop: either the early `return false` on an
invalid proxy, or the loop's final (out_tuple, err) pair; both record how
many attempts were made and the backoff sleeps performed (in ms). -/
inductive AttemptOutcome where
  | proxyFail (nAttempts : Nat) (sleeps : List Nat)
  | finished (out : Option (List GVar)) (err : Option GErrorT) (nAttempts : Nat) (sleeps : List Nat)

/-- The retry loop
`for (int attempts = MAX_ATTEMPTS; !out_tuple && attempts; attempts--)`:
sleep WAIT_MS when the previous error classified retriable, break on any
other non-NOERR classification, bail out on an invalid proxy, otherwise
clear the error and invoke. -/
def attemptLoop (env : CallEnv) :
    Nat → Option (List GVar) → Option GErrorT → Nat → List Nat → AttemptOutcome
  | 0, out, err, nA, sleeps => .finished out err nA sleeps
  | fuel + 1, out, err, nA, sleeps =>
      if out.isSome then .finished out err nA sleeps
      else
        let et := errType err
        let sleeps2 := if retriableErrors.contains et then sleeps ++ [WAIT_MS] else sleeps
        if !retriableErrors.contains et && et ≠ .NOERR then .finished out err nA sleeps
        else if !(env.proxyOk nA) then .proxyFail nA sleeps2
        else
          match env.invoke nA with
          | .inl e => attemptLoop env fuel none (some e) (nA + 1) sleeps2
          | .inr t => attemptLoop env fuel (some t) none (nA + 1) sleeps2

/-- The cleanup loop run by `call_cleanup_guard_t`'s destructor when the
call did not succeed: every param's cleanup closure runs; for an out param
it resets the native cell to its default (`par->value = {}`), for an in
param it does nothing. -/
def cleanupParams (ps : List ParamT) : List ParamT :=
  ps.map (fun p => if p.dir then p else { p with value := defaultVal p.wty })

/-- The output-decoding loop of callSync: walk the params in declaration
order, consuming one wire field per out param; running out of wire fields
or a failed unmarshal aborts (`none`). Extra wire fields beyond the
declared outputs are ignored. (The source writes each decoded value into
its cell as it goes and resets everything on a later failure; since the
reset overwrites those partial writes, returning `none` here and resetting
from the pre-call cells yields identical final cells.) -/
def unmarshalOuts : List ParamT → List GVar → Option (List ParamT)
  | [], _ => some []
  | p :: ps, vs =>
      if p.dir then (unmarshalOuts ps vs).map (p :: ·)
      else
        match vs with
        | [] => none
        | v :: rest =>
            match unmarshalVal p.wty v with
            | some newVal => (unmarshalOuts ps rest).map ({ p with value := newVal } :: ·)
            | none => none

/-- The observable outcome of one callSync invocation. -/
structure CallResult where
  ok : Bool
  params : List ParamT
  nAttempts : Nat
  sleeps : List Nat
deriving Inhabited

/-- `GDBusCall::callSync`. `found` is the result of `calls.get(this)`
producing a usable guard (see `storageGet`); when it is false, callSync
returns false *before* the call_cleanup_guard_t is constructed, so no
cleanup runs and the cells keep their previous contents. On every later
failure path the guard's destructor resets all out cells. -/
def callSync (found : Bool) (env : CallEnv) (ps : List ParamT) : CallResult :=
  if !found then ⟨false, ps, 0, []⟩
  else
    match marshalIns ps with
    | none => ⟨false, cleanupParams ps, 0, []⟩
    | some _ins =>
        match attemptLoop env MAX_ATTEMPTS none none 0 [] with
        | .proxyFail nA sleeps => ⟨false, cleanupParams ps, nA, sleeps⟩
        | .finished out err nA sleeps =>
            if err.isSome then ⟨false, cleanupParams ps, nA, sleeps⟩
            else
              match out with
              | none => ⟨false, cleanupParams ps, nA, sleeps⟩
              | some outs =>
                  match unmarshalOuts ps outs with
                  | none => ⟨false, cleanupParams ps, nA, sleeps⟩
                  | some ps2 => ⟨true, ps2, nA, sleeps⟩

/-! ## Signal dispatch loop (mainLoopInstance, waitAndProcessSignals,
stopProcessingSignals) -/

/-- The two function-local statics of `mainLoopInstance`, reduced to what
the source observes: whether their one-time initialization already ran, and
the current GMainLoop (with its `g_main_loop_is_running` flag); `none` is a
null loop pointer. The GMainContext is owned by the loop and carries no
separate observable state. -/
structure GMainState where
  inited : Bool
  loop : Option Bool
deriving DecidableEq

/-- `mainLoopInstance`: on the first invocation ever, create the context
and the loop (created running: `g_main_loop_new(context, true)`); on every
invocation, tear the loop down if it is no longer running; return the
current loop pointer. -/
def mainLoopInstance (s : GMainState) : GMainState × Bool :=
  let s1 := if s.inited then s else { inited := true, loop := some true }
  let s2 := match s1.loop with
            | some running => if running then s1 else { s1 with loop := none }
            | none => s1
  (s2, s2.loop.isSome)

/-- `stopProcessingSignals`: if the loop exists, `g_main_loop_quit` clears
its running flag and one more `mainLoopInstance` call processes the quit
(tearing the loop down). -/
def stopProcessingSignals (s : GMainState) : GMainState :=
  let r := mainLoopInstance s
  if r.2 then
    let s2 := { r.1 with loop := r.1.loop.map (fun _ => false) }
    (mainLoopInstance s2).1
  else r.1

/-- `waitAndProcessSignals`: the loop_timeout_t constructor and the
iteration loop each consult `mainLoopInstance`; iterating the context
dispatches callbacks but never changes whether the loop is alive (only
`stopProcessingSignals` does); the return value is whether the loop
pointer is still non-null. -/
def waitAndProcessSignals (s : GMainState) : GMainState × Bool :=
  let r1 := mainLoopInstance s
  let r2 := mainLoopInstance r1.1
  (r2.1, r2.2)

/-! ## Helper lemmas -/

theorem lookup_mem {α β : Type} [BEq α] [LawfulBEq α] (m : List (α × β)) (k : α) (v : β)
    (h : m.lookup k = some v) : (k, v) ∈ m := by
  induction m with
  | nil => simp [List.lookup] at h
  | cons e rest ih =>
      rw [List.lookup] at h
      by_cases hk : k = e.1
      · subst hk
        simp at h
        subst h
        exact List.mem_cons_self _ _
      · have : (k == e.1) = false := beq_false_of_ne hk
        rw [this] at h
        exact List.mem_cons_of_mem _ (ih h)

theorem lookup_vmErase (m : VarTable) (k : Addr) : (vmErase m k).lookup k = none := by
  induction m with
  | nil => rfl
  | cons e rest ih =>
      by_cases h : e.1 = k
      · simpa [vmErase, List.filter, h] using ih
      · have hne : (e.1 != k) = true := by simp [h]
        have hne2 : (k == e.1) = false := beq_false_of_ne (Ne.symm h)
        simpa [vmErase, List.filter, hne, List.lookup, hne2] using ih

theorem cleanupParams_resets (ps : List ParamT) :
    ∀ p ∈ cleanupParams ps, p.dir = false → p.value = defaultVal p.wty := by
  intro p hp hdir
  simp only [cleanupParams, List.mem_map] at hp
  obtain ⟨q, _hq, rfl⟩ := hp
  by_cases h : q.dir
  · simp [h] at hdir
  · simp [h]

/-- Shape of a callSync outcome once the call was acquired from the
registry: either it succeeded and the cells hold decoded outputs, or it
failed and the cleanup guard reset every cell. -/
theorem callSync_acquired_shape (env : CallEnv) (ps : List ParamT) :
    (∃ outs ps2 nA sl, unmarshalOuts ps outs = some ps2 ∧
        callSync true env ps = ⟨true, ps2, nA, sl⟩) ∨
    (∃ nA sl, callSync true env ps = ⟨false, cleanupParams ps, nA, sl⟩) := by
  unfold callSync
  rcases hm : marshalIns ps with _ | ins
  · right; exact ⟨0, [], rfl⟩
  · rcases hl : attemptLoop env MAX_ATTEMPTS none none 0 [] with ⟨nA, sl⟩ | ⟨out, err, nA, sl⟩
    · right; exact ⟨nA, sl, rfl⟩
    · rcases err with _ | e
      · rcases out with _ | outs
        · right; exact ⟨nA, sl, rfl⟩
        · rcases hu : unmarshalOuts ps outs with _ | ps2
          · right; refine ⟨nA, sl, ?_⟩; simp [hu]
          · left; refine ⟨outs, ps2, nA, sl, hu, ?_⟩; simp [hu]
      · right; exact ⟨nA, sl, rfl⟩

/-! ## Claims -/

/-- One iteration of the retry loop on the very first attempt (no previous
error): no sleep, proceed to invoke. -/
theorem attemptLoop_step_first (env : CallEnv) (fuel nA : Nat) (sleeps : List Nat) (e : GErrorT)
    (hp : env.proxyOk nA = true) (hi : env.invoke nA = Sum.inl e) :
    attemptLoop env (fuel + 1) none none nA sleeps =
      attemptLoop env fuel none (some e) (nA + 1) sleeps := by
  rw [attemptLoop]
  simp [errType, retriableErrors, hp, hi]

/-- One iteration after a retriable error: sleep WAIT_MS, then invoke. -/
theorem attemptLoop_step_retry (env : CallEnv) (fuel nA : Nat) (sleeps : List Nat) (e e2 : GErrorT)
    (hr : retriableErrors.contains (errType (some e)) = true)
    (hp : env.proxyOk nA = true) (hi : env.invoke nA = Sum.inl e2) :
    attemptLoop env (fuel + 1) none (some e) nA sleeps =
      attemptLoop env fuel none (some e2) (nA + 1) (sleeps ++ [WAIT_MS]) := by
  rw [attemptLoop]
  have hrm : errType (some e) ∈ retriableErrors := by simpa using hr
  simp [hrm, hp, hi]

/-- One iteration after a fatal (non-retriable, non-NOERR) classification:
break out of the loop without invoking again. -/
theorem attemptLoop_step_fatal (env : CallEnv) (fuel nA : Nat) (sleeps : List Nat) (e : GErrorT)
    (hf : errType (some e) = .ACCESS_DENIED) :
    attemptLoop env (fuel + 1) none (some e) nA sleeps =
      .finished none (some e) nA sleeps := by
  rw [attemptLoop]
  have hnm : Errcode.ACCESS_DENIED ∉ retriableErrors := by decide
  simp [hf, hnm]

/-- C1: a callSync invocation whose every remote-call attempt fails with an
error classified RETRIABLE makes exactly 3 attempts, sleeps 250 ms before
each of the two retries, and returns false; an invocation whose first
attempt fails with an error classified FATAL (access denied) makes exactly
one attempt (no retry, no sleep) and returns false. -/
theorem C1_retry_protocol
    (envR envF : CallEnv) (psR psF : List ParamT)
    (hR : ∀ k, ∃ e, envR.invoke k = Sum.inl e ∧
        retriableErrors.contains (errType (some e)) = true)
    (hRp : ∀ k, envR.proxyOk k = true)
    (hRm : (marshalIns psR).isSome = true)
    (hF : ∃ e, envF.invoke 0 = Sum.inl e ∧ errType (some e) = .ACCESS_DENIED)
    (hFp : envF.proxyOk 0 = true)
    (hFm : (marshalIns psF).isSome = true) :
    ((callSync true envR psR).nAttempts = 3 ∧
     (callSync true envR psR).sleeps = [250, 250] ∧
     (callSync true envR psR).ok = false) ∧
    ((callSync true envF psF).nAttempts = 1 ∧
     (callSync true envF psF).sleeps = [] ∧
     (callSync true envF psF).ok = false) := by
  obtain ⟨e0, h0, h0r⟩ := hR 0
  obtain ⟨e1, h1, h1r⟩ := hR 1
  obtain ⟨e2, h2, h2r⟩ := hR 2
  obtain ⟨insR, hinsR⟩ := Option.isSome_iff_exists.mp hRm
  obtain ⟨f0, hf0, hf0t⟩ := hF
  obtain ⟨insF, hinsF⟩ := Option.isSome_iff_exists.mp hFm
  have s0 : attemptLoop envR 3 none none 0 [] = attemptLoop envR 2 none (some e0) 1 [] :=
    attemptLoop_step_first envR 2 0 [] e0 (hRp 0) h0
  have s1 : attemptLoop envR 2 none (some e0) 1 [] =
      attemptLoop envR 1 none (some e1) 2 [WAIT_MS] :=
    attemptLoop_step_retry envR 1 1 [] e0 e1 h0r (hRp 1) h1
  have s2 : attemptLoop envR 1 none (some e1) 2 [WAIT_MS] =
      attemptLoop envR 0 none (some e2) 3 [WAIT_MS, WAIT_MS] :=
    attemptLoop_step_retry envR 0 2 [WAIT_MS] e1 e2 h1r (hRp 2) h2
  have hloopR : attemptLoop envR 3 none none 0 [] =
      .finished none (some e2) 3 [WAIT_MS, WAIT_MS] := by
    rw [s0, s1, s2]; rfl
  have hcsR : callSync true envR psR = ⟨false, cleanupParams psR, 3, [WAIT_MS, WAIT_MS]⟩ := by
    unfold callSync
    simp [hinsR, MAX_ATTEMPTS, hloopR]
  have t0 : attemptLoop envF 3 none none 0 [] = attemptLoop envF 2 none (some f0) 1 [] :=
    attemptLoop_step_first envF 2 0 [] f0 hFp hf0
  have t1 : attemptLoop envF 2 none (some f0) 1 [] = .finished none (some f0) 1 [] :=
    attemptLoop_step_fatal envF 1 1 [] f0 hf0t
  have hloopF : attemptLoop envF 3 none none 0 [] = .finished none (some f0) 1 [] := by
    rw [t0, t1]
  have hcsF : callSync true envF psF = ⟨false, cleanupParams psF, 1, []⟩ := by
    unfold callSync
    simp [hinsF, MAX_ATTEMPTS, hloopF]
  rw [hcsR, hcsF]
  exact ⟨⟨rfl, rfl, rfl⟩, ⟨rfl, rfl, rfl⟩⟩

/-- Transport that always fails with SERVICE_UNKNOWN (retriable). -/
def envRetryW : CallEnv :=
  ⟨fun _ => Sum.inl ⟨G_DBUS_ERROR, G_DBUS_ERROR_SERVICE_UNKNOWN⟩, fun _ => true⟩

/-- Transport that always fails with ACCESS_DENIED (fatal). -/
def envFatalW : CallEnv :=
  ⟨fun _ => Sum.inl ⟨G_DBUS_ERROR, G_DBUS_ERROR_ACCESS_DENIED⟩, fun _ => true⟩

theorem C1_retry_protocol_witness :
    ((callSync true envRetryW []).nAttempts = 3 ∧
     (callSync true envRetryW []).sleeps = [250, 250] ∧
     (callSync true envRetryW []).ok = false) ∧
    ((callSync true envFatalW []).nAttempts = 1 ∧
     (callSync true envFatalW []).sleeps = [] ∧
     (callSync true envFatalW []).ok = false) :=
  C1_retry_protocol envRetryW envFatalW [] []
    (fun _ => ⟨⟨G_DBUS_ERROR, G_DBUS_ERROR_SERVICE_UNKNOWN⟩, rfl, rfl⟩)
    (fun _ => rfl) rfl
    ⟨⟨G_DBUS_ERROR, G_DBUS_ERROR_ACCESS_DENIED⟩, rfl, rfl⟩ rfl rfl

/-- C2: the claim asserts decode(encode(v)) = v for every scalar type; it
fails for TYPE_D (double). `unmarshal(TYPE_D, ...)` assigns
`static_cast<bool>(g_variant_get_double(gv))` to the double cell, so the
round trip of 2.5 yields 1.0, not 2.5 (the other eight scalar types do
round-trip; see the roundTrip lemmas above). -/
theorem C2_double_roundtrip_collapses :
    roundTrip .TYPE_D (.pD (5 / 2)) = some (.pD 1) ∧ (5 / 2 : Rat) ≠ 1 := by
  constructor
  · show (unmarshalVal .TYPE_D (.VDouble (5 / 2))) = some (.pD 1)
    rw [unmarshalVal]
    norm_num
  · norm_num

/-- C3 counterexample: a third concurrent acquire on the same identity
(one guard already outstanding, so the observed use_count is 3) does NOT
get a usable guard: `call_storage_t::get` returns the empty
`call_guard_t{call_ptr_t()}` (the violation is logged). -/
theorem C3_third_acquire_cex :
    (storageGet false true 1).usable = false ∧
    (storageGet false true 1).violationLogged = true := by decide

/-- C3 (amended): when `get` observes an ownership count different from
the expected two owners (and nonzero), the violation is logged and the
later acquire returns an empty guard, so that invocation fails — a hard
stop for that call, not a best-effort degrade. -/
theorem C3_third_acquire_amended (g : Nat) (h : 1 ≤ g) :
    (storageGet false true g).usable = false ∧
    (storageGet false true g).violationLogged = true := by
  have h2 : (2 + g == 2) = false := by
    simp only [beq_eq_false_iff_ne, ne_eq]
    omega
  have h0 : (2 + g == 0) = false := by
    simp only [beq_eq_false_iff_ne, ne_eq]
    omega
  simp [storageGet, verboseCheckOwnership, h2, h0]

theorem C3_third_acquire_amended_witness :
    (storageGet false true 2).usable = false ∧
    (storageGet false true 2).violationLogged = true :=
  C3_third_acquire_amended 2 (by decide)

/-- Transport for the C4 scenarios: every attempt is denied (fatal). -/
def envC4 : CallEnv :=
  ⟨fun _ => Sum.inl ⟨G_DBUS_ERROR, G_DBUS_ERROR_ACCESS_DENIED⟩, fun _ => true⟩

/-- A call with one out parameter whose cell still holds stale data (7)
from an earlier decode. -/
def psStale : List ParamT := [⟨.TYPE_I, false, .pI 7⟩]

/-- C4 counterexample: when the Call Descriptor is not found in the
registry, callSync returns false *before* the call_cleanup_guard_t is
constructed, so no reset closure runs and the output cell keeps its stale
value 7 instead of the type's default 0 — refuting "on any failure path,
including the Call Descriptor not being found, every reset runs". -/
theorem C4_notfound_no_reset_cex :
    (callSync false envC4 psStale).ok = false ∧
    (callSync false envC4 psStale).params = [⟨.TYPE_I, false, .pI 7⟩] ∧
    PVal.pI 7 ≠ defaultVal .TYPE_I := by
  exact ⟨rfl, rfl, by decide⟩

/-- C4 (amended): once the Call Descriptor was acquired from the
registry, every false-returning callSync leaves every output cell at its
type's default (the cleanup guard ran every reset closure, covering input
encoding failures, transport errors and output decoding failures), and on
success no reset occurs — the cells hold the freshly decoded outputs.
When the descriptor is not found, callSync returns false without touching
the cells. -/
theorem C4_output_reset (env : CallEnv) (ps : List ParamT) :
    ((callSync true env ps).ok = false →
      ∀ p ∈ (callSync true env ps).params, p.dir = false → p.value = defaultVal p.wty) ∧
    ((callSync true env ps).ok = true →
      ∃ outs, unmarshalOuts ps outs = some (callSync true env ps).params) ∧
    ((callSync false env ps).ok = false ∧ (callSync false env ps).params = ps) := by
  rcases callSync_acquired_shape env ps with ⟨outs, ps2, nA, sl, hu, hcs⟩ | ⟨nA, sl, hcs⟩
  · refine ⟨?_, ?_, rfl, rfl⟩
    · intro hok
      rw [hcs] at hok
      exact absurd hok (by simp)
    · intro _
      exact ⟨outs, by rw [hcs]; exact hu⟩
  · refine ⟨?_, ?_, rfl, rfl⟩
    · intro _ p hp hdir
      rw [hcs] at hp
      exact cleanupParams_resets ps p hp hdir
    · intro hok
      rw [hcs] at hok
      simp at hok

theorem C4_output_reset_witness :
    (callSync true envC4 psStale).ok = false ∧
    (ParamT.mk .TYPE_I false (.pI 0)).value = defaultVal (ParamT.mk .TYPE_I false (.pI 0)).wty :=
  ⟨rfl, (C4_output_reset envC4 psStale).1 rfl ⟨.TYPE_I, false, .pI 0⟩ (by decide) rfl⟩

/-- C5 counterexample: `variants_map_t::insert` uses `std::map::emplace`,
which does not overwrite: inserting under a handle that already has an
entry leaves the old value in place, so the subsequent lookup returns the
old value, not the newly inserted one. -/
theorem C5_insert_keeps_old_cex :
    vmAt (vmInsert (vmInsert [] 0 (some 1)) 0 (some 2)) 0 = some 1 ∧
    (some 1 : Option GvPtr) ≠ some 2 := by decide

/-- C5 (amended): insert stores the value under the handle only when no
entry exists for it; when an entry already exists, it is left unchanged
and lookup keeps returning the previously stored value (callers that need
replacement erase first, as GDBusVariant::operator= does). -/
theorem C5_insert_behavior (m : VarTable) (k : Addr) (g : Option GvPtr) :
    (m.lookup k = none → vmAt (vmInsert m k g) k = g) ∧
    (∀ w, m.lookup k = some w → vmAt (vmInsert m k g) k = w) := by
  constructor
  · intro h
    simp [vmInsert, h, vmAt, List.lookup]
  · intro w h
    simp [vmInsert, h, vmAt]

theorem C5_insert_behavior_witness :
    vmAt (vmInsert [] 3 (some 4)) 3 = some 4 :=
  (C5_insert_behavior [] 3 (some 4)).1 rfl

/-- C6 counterexample: from a fresh process, waitAndProcessSignals brings
the loop up (returns true); after stopProcessingSignals a later
waitAndProcessSignals returns false — the loop is NOT recreated, because
the function-local statics of mainLoopInstance initialize only once. -/
theorem C6_no_recreate_cex :
    (waitAndProcessSignals ⟨false, none⟩).2 = true ∧
    (waitAndProcessSignals
      (stopProcessingSignals (waitAndProcessSignals ⟨false, none⟩).1)).2 = false := by
  decide

/-- C6 (amended): stopProcessingSignals tears the loop down for good: from
any state, the loop pointer is null afterwards, and every subsequent
waitAndProcessSignals call leaves the state unchanged and returns false
(signal processing does not resume). -/
theorem C6_stop_is_final (s : GMainState) :
    (stopProcessingSignals s).loop = none ∧
    (waitAndProcessSignals (stopProcessingSignals s)).2 = false ∧
    (waitAndProcessSignals (stopProcessingSignals s)).1 = stopProcessingSignals s := by
  obtain ⟨i, l⟩ := s
  cases i <;> rcases l with _ | b <;> first | decide | (cases b <;> decide)

/-- `proxies[target] = proxy_t{obj}`: the pool's lookup table afterwards
maps the target to the new proxy. -/
theorem poolUpdate_lookup (m : List (String × ProxyT)) (k : String) (v : ProxyT) :
    (poolUpdate m k v).lookup k = some v := by
  simp [poolUpdate, List.lookup]

/-- C7: repeated USE_EXISTING lookups with no intervening failure return
the same Endpoint instance and leave the pool unchanged after the first
call; RECREATE always creates a new proxy (a fresh pointer, distinct from
any cached instance) and replaces the cache entry for the triple. -/
theorem C7_endpoint_pool (s : PoolState) (name path iface : String) (hwf : PoolWF s) :
    ((instanceFor (instanceFor s name path iface .USE_EXISTING true).1
        name path iface .USE_EXISTING true).2 =
      (instanceFor s name path iface .USE_EXISTING true).2 ∧
     (instanceFor (instanceFor s name path iface .USE_EXISTING true).1
        name path iface .USE_EXISTING true).1 =
      (instanceFor s name path iface .USE_EXISTING true).1) ∧
    ((instanceFor s name path iface .RECREATE true).2.proxy = some s.nextPtr ∧
     ((instanceFor s name path iface .RECREATE true).1.proxies.lookup
        (name ++ " " ++ path ++ " " ++ iface) =
      some (instanceFor s name path iface .RECREATE true).2) ∧
     (∀ cached, s.proxies.lookup (name ++ " " ++ path ++ " " ++ iface) = some cached →
        (instanceFor s name path iface .RECREATE true).2 ≠ cached)) := by
  refine ⟨?_, ?_, ?_, ?_⟩
  · rcases hcur : s.proxies.lookup (name ++ " " ++ path ++ " " ++ iface) with _ | cur
    · constructor <;> simp [instanceFor, hcur, poolUpdate_lookup]
    · rcases hval : cur.proxy with _ | n
      · constructor <;> simp [instanceFor, hcur, hval, poolUpdate_lookup]
      · constructor <;> simp [instanceFor, hcur, hval]
  · simp [instanceFor]
  · simp [instanceFor, poolUpdate_lookup]
  · intro cached hcached heq
    have hmem := lookup_mem s.proxies _ cached hcached
    have hrec : (instanceFor s name path iface .RECREATE true).2 =
        ⟨some s.nextPtr, name⟩ := by
      simp [instanceFor]
    rw [hrec] at heq
    have hcp : cached.proxy = some s.nextPtr := by rw [← heq]
    exact absurd (hwf _ cached hmem s.nextPtr hcp) (lt_irrefl _)

theorem C7_endpoint_pool_witness :
    (instanceFor (instanceFor ⟨[], 0⟩ "n" "/n" "n" .USE_EXISTING true).1
        "n" "/n" "n" .USE_EXISTING true).2 =
      (instanceFor (⟨[], 0⟩ : PoolState) "n" "/n" "n" .USE_EXISTING true).2 :=
  (C7_endpoint_pool ⟨[], 0⟩ "n" "/n" "n"
    (by intro t p hmem n hp; simp at hmem)).1.1

/-- C8: with the original handle at address 0 holding the GVariant at heap
pointer 5 (refcount 1), copy-constructing handles 1 and 2 from it shares
the same heap cell (no duplication); after the original is destroyed both
copies still resolve to the stored value through the one shared cell
(refcount 2); after both copies are destroyed too, the cell is freed and
lookup through either handle yields the explicit no-value result. -/
theorem C8_handle_sharing (v : GVar) :
    (let s0 : VarStore := ⟨⟨[(5, v, 1)]⟩, [(0, some 5)]⟩
     let s3 := gdvDestroy (gdvCopy (gdvCopy s0 1 0) 2 0) 0
     vmAt s3.table 1 = some 5 ∧ vmAt s3.table 2 = some 5 ∧
     resolve s3 1 = some v ∧ resolve s3 2 = some v ∧
     s3.heap.cells = [(5, v, 2)] ∧
     (let s5 := gdvDestroy (gdvDestroy s3 1) 2
      resolve s5 1 = none ∧ resolve s5 2 = none ∧
      vmAt s5.table 1 = none ∧ vmAt s5.table 2 = none ∧ s5.heap.cells = [])) :=
  ⟨rfl, rfl, rfl, rfl, rfl, rfl, rfl, rfl, rfl, rfl⟩

/-- The success flag a registered getter reports is exactly the
type-match test of the resolved variant. -/
theorem getterOf_snd (store : VarStore) (ft : FieldType) (a : Addr) :
    (getterOf ft store a).2 = fieldOk store ft a := by
  cases ft <;> rfl

/-- Success of the toString accumulation loop does not depend on the
accumulator, only on every getter succeeding, position by position. -/
theorem tupleFieldsStr_isSome (store : VarStore) (fts : List FieldType) :
    ∀ (as_ : List Addr) (acc : String), fts.length = as_.length →
      ((tupleFieldsStr store fts as_ acc).isSome = true ↔
        ∀ q ∈ fts.zip as_, fieldOk store q.1 q.2 = true) := by
  induction fts with
  | nil =>
      intro as_ acc _h
      simp [tupleFieldsStr]
  | cons ft fts ih =>
      intro as_ acc h
      cases as_ with
      | nil => simp at h
      | cons a rest =>
          have hlen : fts.length = rest.length := by simpa using h
          simp only [tupleFieldsStr, List.zip_cons_cons, List.mem_cons, forall_eq_or_imp]
          cases hg : (getterOf ft store a).2 with
          | false =>
              have hf : fieldOk store ft a = false := (getterOf_snd store ft a).symm.trans hg
              simp [hf]
          | true =>
              have hf : fieldOk store ft a = true := (getterOf_snd store ft a).symm.trans hg
              simp only [if_pos rfl, hf, true_and]
              exact ih rest _ hlen

theorem paren_wrap_not_empty (str : String) : ("(" ++ str ++ ")").isEmpty = false := by
  rw [Bool.eq_false_iff]
  intro hcontra
  have hemp : ("(" ++ str ++ ")") = "" := (String.isEmpty_iff _).mp hcontra
  have hl := congrArg String.length hemp
  rw [String.length_append, String.length_append] at hl
  have h1 : "(".length = 1 := rfl
  have h2 : ")".length = 1 := rfl
  rw [h1, h2, String.length_empty] at hl
  omega

/-- Under matching lengths, `tuple_t::toString` is nonempty exactly when
the accumulation loop succeeded. -/
theorem tupleToStr_ne_empty (store : VarStore) (t : TupleT)
    (hlen : t.vars.length = t.getters.length) :
    ((tupleToStr store t).isEmpty = false ↔
      (tupleFieldsStr store t.getters t.vars "").isSome = true) := by
  unfold tupleToStr
  rw [hlen]
  simp only [bne_self_eq_false, Bool.false_eq_true, if_false]
  rcases hres : tupleFieldsStr store t.getters t.vars "" with _ | str
  · simp [show "".isEmpty = true from rfl]
  · simp [paren_wrap_not_empty]

/-- C9: `GDBusTuple::assign` (through `tuples[this].assign`) returns true
iff the number of supplied variants equals the number of declared fields
and every declared field, matched by position in declaration order,
successfully extracts its expected scalar type from its variant. -/
theorem C9_tuple_assign (store : VarStore) (t : TupleT) (vs : List Addr) :
    (tupleAssign store t vs).2 = true ↔
      (vs.length = t.getters.length ∧
       ∀ q ∈ t.getters.zip vs, fieldOk store q.1 q.2 = true) := by
  have hassign : (tupleAssign store t vs).2 =
      !(tupleToStr store ⟨vs, t.getters⟩).isEmpty := rfl
  rw [hassign]
  by_cases hlen : vs.length = t.getters.length
  · have hne := tupleToStr_ne_empty store ⟨vs, t.getters⟩ hlen
    have hiff := tupleFieldsStr_isSome store t.getters vs "" hlen.symm
    constructor
    · intro h
      refine ⟨hlen, hiff.mp (hne.mp ?_)⟩
      simpa using h
    · rintro ⟨-, hall⟩
      have := hne.mpr (hiff.mpr hall)
      simp [this]
  · constructor
    · intro h
      exfalso
      have hb : (vs.length != t.getters.length) = true := by simpa using hlen
      unfold tupleToStr at h
      simp only [hb] at h
      simp at h
      exact absurd h (by decide)
    · rintro ⟨hl, -⟩
      exact absurd hl hlen

/-- The store for the C9 witness: handle 10 resolves to an int32, handle
11 to a string. -/
def storeC9 : VarStore :=
  ⟨⟨[(0, .VInt32 5, 1), (1, .VString "x", 1)]⟩, [(10, some 0), (11, some 1)]⟩

theorem C9_tuple_assign_witness :
    (tupleAssign storeC9 ⟨[], [.fInt, .fString]⟩ [10, 11]).2 = true :=
  (C9_tuple_assign storeC9 ⟨[], [.fInt, .fString]⟩ [10, 11]).mpr ⟨rfl, by decide⟩

/-- After `v = v`, the destination's entry denotes nothing: operator=
first erases the destination's entry and then looks up the now-removed
source. -/
theorem resolve_after_self_assign (s : VarStore) (a : Addr) :
    resolve (gdvAssign s a a) a = none := by
  unfold gdvAssign gdvDestroy
  rcases h : s.table.lookup a with _ | g
  · unfold gdvCopy resolve
    simp [vmAt, h, vmInsert, List.lookup]
  · unfold gdvCopy resolve
    have h2 : (vmErase s.table a).lookup a = none := lookup_vmErase s.table a
    simp [vmAt, h2, vmInsert, List.lookup]

/-- C10: self-assignment of a GDBusVariant that holds a stored value
erases the stored value: the assignment operator erases the entry keyed by
the destination and then looks up the already-removed source, so every
getter afterwards reports failure with the type's default and print()
returns the empty string. -/
theorem C10_self_assign (s : VarStore) (a : Addr)
    (_hStored : (resolve s a).isSome = true) :
    getInt (gdvAssign s a a) a = (0, false) ∧
    getBool (gdvAssign s a a) a = (false, false) ∧
    getDouble (gdvAssign s a a) a = (0, false) ∧
    getString (gdvAssign s a a) a = ("", false) ∧
    gdvPrintStr (gdvAssign s a a) a = "" := by
  have hres : resolve (gdvAssign s a a) a = none := resolve_after_self_assign s a
  simp [getInt, getBool, getDouble, getString, gdvPrintStr, hres]

/-- The store for the C10 witness: handle 7 holds the int32 5. -/
def storeC10 : VarStore := ⟨⟨[(0, .VInt32 5, 1)]⟩, [(7, some 0)]⟩

theorem C10_self_assign_witness :
    getInt (gdvAssign storeC10 7 7) 7 = (0, false) ∧
    getBool (gdvAssign storeC10 7 7) 7 = (false, false) ∧
    getDouble (gdvAssign storeC10 7 7) 7 = (0, false) ∧
    getString (gdvAssign storeC10 7 7) 7 = ("", false) ∧
    gdvPrintStr (gdvAssign storeC10 7 7) 7 = "" :=
  C10_self_assign storeC10 7 (by decide)
